import Mathlib

/-!
Verification development for the StockAnalyzerApp technical-indicator and
scoring pipeline.  The Python source (pandas/numpy over a price-bar
DataFrame) is shallowly embedded over `List Bar` with exact rational
arithmetic.  Floating-point NaN values that pandas produces (unfilled
rolling windows, 0/0 divisions) are represented by `Option ℚ` with `none`
standing for NaN; IEEE comparisons against NaN are `False`, which the
embedding reproduces at each use site.  The square root inside standard
deviations is represented by the rational approximation `Rat.sqrt`; no
verified statement depends on its value.
-/

namespace StockAnalyzer

/-- One price/volume bar of a series (a DataFrame row).  The `open` column is
never read by the functions under verification and is omitted. -/
structure Bar where
  high : ℚ
  low : ℚ
  close : ℚ
  volume : ℚ

/-- The `Close` column. -/
def closes (bars : List Bar) : List ℚ := bars.map Bar.close

/-- The `High` column. -/
def highs (bars : List Bar) : List ℚ := bars.map Bar.high

/-- The `Low` column. -/
def lows (bars : List Bar) : List ℚ := bars.map Bar.low

/-- The `Volume` column. -/
def volumes (bars : List Bar) : List ℚ := bars.map Bar.volume

/-- `xs.tail(k)` of pandas: the last `k` elements (all of them when the list
is shorter than `k`). -/
def lastN (k : ℕ) (xs : List ℚ) : List ℚ := xs.drop (xs.length - k)

/-- `Series.mean()`: sum divided by length (`0` for the empty list, where
rational division by zero is `0`). -/
def listMean (xs : List ℚ) : ℚ := xs.sum / (xs.length : ℚ)

/-- Maximum of a list, with a default for the empty list. -/
def maxListD (xs : List ℚ) (d : ℚ) : ℚ :=
  match xs with
  | [] => d
  | x :: rest => rest.foldl max x

/-- Minimum of a list, with a default for the empty list. -/
def minListD (xs : List ℚ) (d : ℚ) : ℚ :=
  match xs with
  | [] => d
  | x :: rest => rest.foldl min x

/-- `df['Close'].iloc[-1]`: the last close (callers guarantee a non-empty
series; the default is never observed under that guarantee). -/
def lastCloseD (bars : List Bar) : ℚ := (closes bars).getLastD 0

/-- `Series.diff()` without its leading NaN: consecutive differences. -/
def diffs (xs : List ℚ) : List ℚ := List.zipWith (fun a b => a - b) xs.tail xs

/-- `Series.pct_change().dropna()`: consecutive relative changes. -/
def pctChanges (xs : List ℚ) : List ℚ :=
  List.zipWith (fun cur prev => (cur - prev) / prev) xs.tail xs

/-- Sample variance with `ddof = 1` (the pandas `Series.std()` default),
before the square root. -/
def sampleVar (xs : List ℚ) : ℚ :=
  (xs.map (fun x => (x - listMean xs) ^ 2)).sum / ((xs.length : ℚ) - 1)

/-- pandas `Series.std()` (ddof = 1); `Rat.sqrt` is the rational
approximation of the irrational float square root.  No verified statement
depends on the value of this function. -/
def sampleStd (xs : List ℚ) : ℚ := Rat.sqrt (sampleVar xs)

/-- numpy `np.std` (ddof = 0), used only on the always-empty returns list of
the backtester. -/
def npStd (xs : List ℚ) : ℚ :=
  Rat.sqrt ((xs.map (fun x => (x - listMean xs) ^ 2)).sum / (xs.length : ℚ))

/-! ## Indicator library (`stock_app_final.py`) -/

/-- `calculate_rsi(df, period=14)` of `stock_app_final.py`.

The source computes `delta = Close.diff()`, splits it with
`delta.where(delta > 0, 0)` (which also replaces the leading NaN of `diff`
by `0`, because `NaN > 0` is false), takes `rolling(window=14).mean()` of
the gain and loss streams, and returns `100 - 100/(1 + gain/loss)` at the
last row.  The `except` branch returning `50.0` fires only for an empty
DataFrame (`iloc[-1]` raises there).  For a non-empty series:
`none` (NaN) when the last rolling window is unfilled (fewer than 14
deltas including the replaced leading one, i.e. fewer than 14 bars) and
when `gain = loss = 0` (`0/0` is NaN); `100` when `loss = 0 < gain`
(division by zero is `+inf` in pandas and `100 - 100/(1+inf) = 100`). -/
def calculate_rsi (bars : List Bar) : Option ℚ :=
  if bars.isEmpty then some 50
  else
    let deltas := 0 :: diffs (closes bars)
    if deltas.length < 14 then none
    else
      let w := lastN 14 deltas
      let gain := (w.map (fun d => max d 0)).sum / (14 : ℚ)
      let loss := (w.map (fun d => max (-d) 0)).sum / (14 : ℚ)
      if loss = 0 then (if gain = 0 then none else some 100)
      else some (100 - 100 / (1 + gain / loss))

/-- `calculate_bollinger_bands(df, period=20, std_dev=2)` of
`stock_app_final.py`, returning `(upper, lower)` at the last row.

The source takes `rolling(window=20)` mean and standard deviation of the
closes; for fewer than 20 bars the rolling window is unfilled and pandas
yields NaN for both bands without raising, so the `except` fallback
(`close*1.1, close*0.9`) is unreachable for a non-empty series. -/
def calculate_bollinger_bands (bars : List Bar) : Option ℚ × Option ℚ :=
  if bars.length < 20 then (none, none)
  else
    let w := lastN 20 (closes bars)
    let sma := listMean w
    let sd := sampleStd w
    (some (sma + sd * 2), some (sma - sd * 2))

/-- One step of pandas `ewm(span=s).mean()` with the default
`adjust=True`: the state is the weighted numerator and denominator, both
decayed by `beta = 1 - 2/(span+1)` at each new observation. -/
def ewmAux (beta : ℚ) : List ℚ → ℚ → ℚ → List ℚ
  | [], _, _ => []
  | x :: xs, num, den =>
    let num' := beta * num + x
    let den' := beta * den + 1
    (num' / den') :: ewmAux beta xs num' den'

/-- pandas `Series.ewm(span=span).mean()` (adjust=True, the default used in
`stock_app_final.py`). -/
def ewmMean (span : ℕ) (xs : List ℚ) : List ℚ :=
  ewmAux (1 - 2 / ((span : ℚ) + 1)) xs 0 0

/-- `calculate_macd(df, fast=12, slow=26, signal=9)` of
`stock_app_final.py`: `(macd, signal, histogram)` at the last row.  The
`except` branch returning all zeros fires only for an empty DataFrame
(`iloc[-1]`); `ewm` itself is defined from the first row on. -/
def calculate_macd (bars : List Bar) : ℚ × ℚ × ℚ :=
  let cs := closes bars
  let emaFast := ewmMean 12 cs
  let emaSlow := ewmMean 26 cs
  let macdLine := List.zipWith (fun a b => a - b) emaFast emaSlow
  let signalLine := ewmMean 9 macdLine
  let histogram := List.zipWith (fun a b => a - b) macdLine signalLine
  if bars.isEmpty then (0, 0, 0)
  else (macdLine.getLastD 0, signalLine.getLastD 0, histogram.getLastD 0)

/-! ## Composite scorer (`stock_app_final.py`, AI 选股算法 section) -/

/-- `calculate_volume_score(df)`: 20 when the trailing-5-bar average volume
exceeds 1.5× the overall average, 15 when it exceeds 1×, else 10; series
shorter than 5 bars score 10. -/
def calculate_volume_score (bars : List Bar) : ℚ :=
  if bars.length < 5 then 10
  else
    let recent := listMean (lastN 5 (volumes bars))
    let avg := listMean (volumes bars)
    if recent > avg * 1.5 then 20
    else if recent > avg then 15
    else 10

/-- `calculate_technical_score(df)` (the AI-score variant with the
25/35/15 RSI bucket).  On an empty DataFrame the bare call to
`calculate_bollinger_bands` raises (`iloc[-1]` inside its own except
branch) and the enclosing `except` returns 50.  A NaN RSI
(`calculate_rsi` is never Python `None` here) fails every comparison of
its bucket chain and contributes 0; NaN Bollinger bands fail both band
comparisons and fall to the `else` bucket of 20. -/
def calculate_technical_score (bars : List Bar) : ℚ :=
  if bars.isEmpty then 50
  else
    let rsiPart : ℚ :=
      match calculate_rsi bars with
      | none => 0
      | some r =>
        if 30 ≤ r ∧ r ≤ 70 then 25
        else if r < 30 then 35
        else if r > 70 then 15
        else 0
    let md := calculate_macd bars
    let macdPart : ℚ := if md.1 > md.2.1 then 25 else if md.1 < md.2.1 then 15 else 20
    let bbPart : ℚ :=
      match calculate_bollinger_bands bars with
      | (some u, some l) =>
        let p := lastCloseD bars
        if p ≤ l * 1.02 then 25 else if p ≥ u * 0.98 then 15 else 20
      | _ => 20
    min (rsiPart + macdPart + bbPart + calculate_volume_score bars) 100

/-- `calculate_momentum_score(df)`.  The guard returns 50 below 20 bars; at
exactly 20 bars `iloc[-21]` raises IndexError and the `except` also
returns 50. -/
def calculate_momentum_score (bars : List Bar) : ℚ :=
  if bars.length < 20 then 50
  else if bars.length < 21 then 50
  else
    let cs := closes bars
    let c1 := cs.getLastD 0
    let c6 := cs.getD (cs.length - 6) 0
    let c21 := cs.getD (cs.length - 21) 0
    let shortM := (c1 - c6) / c6 * 100
    let medM := (c1 - c21) / c21 * 100
    if shortM > 0 ∧ medM > 0 then 80
    else if shortM > 0 ∧ medM < 0 then 60
    else if shortM < 0 ∧ medM > 0 then 40
    else 20

/-- numpy-style cumulative product (`Series.cumprod()`). -/
def cumprodAux : List ℚ → ℚ → List ℚ
  | [], _ => []
  | x :: xs, acc => (acc * x) :: cumprodAux xs (acc * x)

/-- `Series.cumprod()`. -/
def cumprod (xs : List ℚ) : List ℚ := cumprodAux xs 1

/-- Auxiliary scan for `Series.expanding().max()`. -/
def runningMaxAux : List ℚ → ℚ → List ℚ
  | [], _ => []
  | x :: xs, m => (max m x) :: runningMaxAux xs (max m x)

/-- `Series.expanding().max()`. -/
def runningMax (xs : List ℚ) : List ℚ :=
  match xs with
  | [] => []
  | x :: _ => runningMaxAux xs x

/-- `calculate_risk_score(df)`: average of a volatility score and a
max-drawdown score, both clipped below at 0. -/
def calculate_risk_score (bars : List Bar) : ℚ :=
  if bars.length < 20 then 50
  else
    let rets := pctChanges (closes bars)
    let volatility := sampleStd rets * 100
    let cumulative := cumprod (rets.map (fun r => 1 + r))
    let runmax := runningMax cumulative
    let drawdown := List.zipWith (fun c m => (c - m) / m * 100) cumulative runmax
    let maxdd := |minListD drawdown 0|
    let volatility_score := max 0 (100 - volatility * 2)
    let drawdown_score := max 0 (100 - maxdd)
    (volatility_score + drawdown_score) / 2

/-- Whether a list is pairwise non-decreasing
(`all(x[i] >= x[i-1] for i in range(1, len(x)))`). -/
def chainLE (xs : List ℚ) : Bool :=
  (List.zipWith (fun a b => decide (a ≤ b)) xs xs.tail).all (fun b => b)

/-- The `strategy == "momentum"` branch of `calculate_strategy_adjustment`. -/
def momentumAdj (bars : List Bar) : ℚ :=
  let n := bars.length
  let cs := closes bars
  let score : ℚ :=
    if 10 ≤ n then
      let shortChange :=
        if 6 ≤ n then (cs.getLastD 0 - cs.getD (n - 6) 0) / cs.getD (n - 6) 0 * 100 else 0
      let medChange :=
        if 21 ≤ n then (cs.getLastD 0 - cs.getD (n - 21) 0) / cs.getD (n - 21) 0 * 100 else 0
      let growth : ℚ :=
        if shortChange > 10 ∧ medChange > 15 then 40
        else if shortChange > 5 ∧ medChange > 10 then 30
        else if shortChange > 0 ∧ medChange > 5 then 20
        else if shortChange > 0 ∨ medChange > 0 then 10
        else 0
      let recentVol := listMean (lastN 5 (volumes bars))
      let avgVol := listMean (volumes bars)
      let volConfirm : ℚ :=
        if recentVol > avgVol * 2 then 20
        else if recentVol > avgVol * 1.5 then 15
        else if recentVol > avgVol then 10
        else 0
      growth + volConfirm
    else 0
  min score 60

/-- The `strategy == "value"` branch of `calculate_strategy_adjustment`. -/
def valueAdj (bars : List Bar) : ℚ :=
  let n := bars.length
  let cs := closes bars
  let score : ℚ :=
    if 20 ≤ n then
      let p := cs.getLastD 0
      let ma20 := listMean (lastN 20 cs)
      let ma50 := if 50 ≤ n then listMean (lastN 50 cs) else ma20
      let v1 : ℚ :=
        if p < ma20 * 0.8 then 35
        else if p < ma20 * 0.9 then 25
        else if p < ma20 * 0.95 then 15
        else if p < ma20 then 10
        else 0
      let v2 : ℚ :=
        if p < ma50 * 0.85 then 25
        else if p < ma50 * 0.95 then 15
        else if p < ma50 then 10
        else 0
      let volatility := sampleStd (pctChanges cs) * 100
      let v3 : ℚ :=
        if volatility < 15 then 20
        else if volatility < 25 then 15
        else if volatility < 35 then 10
        else 0
      v1 + v2 + v3
    else 0
  min score 60

/-- The `strategy == "volume"` branch of `calculate_strategy_adjustment`. -/
def volumeAdj (bars : List Bar) : ℚ :=
  let n := bars.length
  let cs := closes bars
  let score : ℚ :=
    if 10 ≤ n then
      let recentVol := listMean (lastN 5 (volumes bars))
      let avgVol := listMean (volumes bars)
      let ratio := if avgVol > 0 then recentVol / avgVol else 1
      let v1 : ℚ :=
        if ratio > 4 then 40
        else if ratio > 3 then 35
        else if ratio > 2 then 25
        else if ratio > 1.5 then 15
        else if ratio > 1 then 10
        else 0
      let recentHigh := maxListD (lastN 5 (highs bars)) 0
      let prevHigh := maxListD (((highs bars).drop (n - 10)).take 5) 0
      let v2 : ℚ :=
        if recentHigh > prevHigh * 1.05 then 20
        else if recentHigh > prevHigh * 1.02 then 15
        else if recentHigh > prevHigh then 10
        else 0
      let last5 := lastN 5 cs
      let v3 : ℚ :=
        if chainLE last5 then 20
        else if last5.getLastD 0 > last5.headD 0 then 10
        else 0
      v1 + v2 + v3
    else 0
  min score 60

/-- The default (均衡投资) branch of `calculate_strategy_adjustment`. -/
def balancedAdj (bars : List Bar) : ℚ :=
  let n := bars.length
  let cs := closes bars
  let score : ℚ :=
    if 20 ≤ n then
      let p := cs.getLastD 0
      let ma20 := listMean (lastN 20 cs)
      let v1 : ℚ :=
        if 0.95 ≤ p / ma20 ∧ p / ma20 ≤ 1.05 then 20
        else if 0.9 ≤ p / ma20 ∧ p / ma20 ≤ 1.1 then 15
        else 10
      let volatility := sampleStd (pctChanges cs) * 100
      let v2 : ℚ :=
        if volatility < 20 then 20
        else if volatility < 30 then 15
        else 10
      let trend := (p - cs.getD (n - 10) 0) / cs.getD (n - 10) 0 * 100
      let v3 : ℚ :=
        if 10 ≤ n then
          if 5 ≤ trend ∧ trend ≤ 15 then 20
          else if 0 ≤ trend ∧ trend ≤ 20 then 15
          else 10
        else 0
      v1 + v2 + v3
    else 0
  min score 60

/-- `calculate_strategy_adjustment(df, strategy)`: dispatch on the strategy
name; every unrecognized name takes the final (balanced) branch. -/
def calculate_strategy_adjustment (bars : List Bar) (strategy : String) : ℚ :=
  if strategy = "momentum" then momentumAdj bars
  else if strategy = "value" then valueAdj bars
  else if strategy = "volume" then volumeAdj bars
  else balancedAdj bars

/-- `calculate_ai_score(df, strategy)`: strategy-weighted blend of the four
sub-scores, clamped to [0, 100] by `min(max(score, 0), 100)`. -/
def calculate_ai_score (bars : List Bar) (strategy : String) : ℚ :=
  let technical_score := calculate_technical_score bars
  let momentum_score := calculate_momentum_score bars
  let risk_score := calculate_risk_score bars
  let strategy_score := calculate_strategy_adjustment bars strategy
  let score :=
    if strategy = "momentum" then
      technical_score * 0.25 + momentum_score * 0.45 + risk_score * 0.15 + strategy_score * 0.15
    else if strategy = "value" then
      technical_score * 0.20 + momentum_score * 0.15 + risk_score * 0.35 + strategy_score * 0.30
    else if strategy = "volume" then
      technical_score * 0.35 + momentum_score * 0.25 + risk_score * 0.10 + strategy_score * 0.30
    else
      technical_score * 0.30 + momentum_score * 0.25 + risk_score * 0.25 + strategy_score * 0.20
  min (max score 0) 100

/-! ## Enhanced technical score and signal generator -/

/-- `calculate_macd_signal(df)`. -/
def calculate_macd_signal (bars : List Bar) : String :=
  let md := calculate_macd bars
  if md.1 > md.2.1 then "bullish"
  else if md.1 < md.2.1 then "bearish"
  else "neutral"

/-- `calculate_bollinger_signal(df)`: NaN bands fail both comparisons and
yield "normal" (the same value its `except` branch returns for an empty
frame). -/
def calculate_bollinger_signal (bars : List Bar) : String :=
  match calculate_bollinger_bands bars with
  | (some u, some l) =>
    let p := lastCloseD bars
    if p ≤ l then "oversold"
    else if p ≥ u then "overbought"
    else "normal"
  | _ => "normal"

/-- `calculate_enhanced_technical_score(df)`: the 20/30/10 RSI bucket,
25/15/5 MACD bucket, 20/15/5 Bollinger bucket and the volume score, capped
at 100.  A NaN RSI fails every bucket comparison and contributes 0. -/
def calculate_enhanced_technical_score (bars : List Bar) : ℚ :=
  let rsiPart : ℚ :=
    match calculate_rsi bars with
    | none => 0
    | some r =>
      if 30 ≤ r ∧ r ≤ 70 then 20
      else if r < 30 then 30
      else if r > 70 then 10
      else 0
  let macdPart : ℚ :=
    if calculate_macd_signal bars = "bullish" then 25
    else if calculate_macd_signal bars = "bearish" then 5
    else 15
  let bbPart : ℚ :=
    if calculate_bollinger_signal bars = "oversold" then 20
    else if calculate_bollinger_signal bars = "overbought" then 5
    else 15
  min (rsiPart + macdPart + bbPart + calculate_volume_score bars) 100

/-- The RSI bucket exactly as claimed for the enhanced technical score:
20 points in the 30–70 range, 30 below, 10 above, extended to a NaN
(`none`) RSI by the 0 contribution the code actually makes there. -/
def specRsiBucket : Option ℚ → ℚ
  | none => 0
  | some r => if 30 ≤ r ∧ r ≤ 70 then 20 else if r < 30 then 30 else 10

/-- The MACD-trend bucket as claimed: 25 bullish (macd > signal), 5 bearish
(macd < signal), 15 neutral. -/
def specMacdBucket (bars : List Bar) : ℚ :=
  let md := calculate_macd bars
  if md.1 > md.2.1 then 25 else if md.1 < md.2.1 then 5 else 15

/-- The Bollinger bucket as claimed: 20 oversold (close ≤ lower band),
5 overbought (close ≥ upper band), 15 normal (including undefined bands). -/
def specBbBucket (bars : List Bar) : ℚ :=
  match calculate_bollinger_bands bars with
  | (some u, some l) =>
    if lastCloseD bars ≤ l then 20
    else if lastCloseD bars ≥ u then 5
    else 15
  | _ => 15

/-- The volume bucket as claimed: 20 when the trailing-5-bar average volume
exceeds 1.5× the overall average, 15 when it exceeds 1×, else 10 — with no
separate short-series case. -/
def specVolumeBucket (bars : List Bar) : ℚ :=
  let recent := listMean (lastN 5 (volumes bars))
  let avg := listMean (volumes bars)
  if recent > avg * 1.5 then 20
  else if recent > avg then 15
  else 10

/-! ## Support/resistance estimator -/

/-- `calculate_smart_support(df)`: below 20 bars, 90% of the last close;
otherwise the numpy mean of the five candidate levels (20- and 50-bar SMAs,
trailing 10-bar lowest low, and the 0.382/0.5 Fibonacci retracements of the
trailing 20-bar high–low range).  With exact arithmetic and at least
20 bars none of the inputs is NaN, so the `pd.isna` fallback is dead. -/
def calculate_smart_support (bars : List Bar) : ℚ :=
  if bars.length < 20 then lastCloseD bars * 0.90
  else
    let cs := closes bars
    let ma20 := listMean (lastN 20 cs)
    let ma50 := if 50 ≤ bars.length then listMean (lastN 50 cs) else ma20
    let recentLow := minListD (lastN (min 10 bars.length) (lows bars)) 0
    let high := maxListD (lastN (min 20 bars.length) (highs bars)) 0
    let low := minListD (lastN (min 20 bars.length) (lows bars)) 0
    let fib38 := high - (high - low) * 0.382
    let fib50 := high - (high - low) * 0.5
    (ma20 + ma50 + recentLow + fib38 + fib50) / 5

/-- `calculate_smart_resistance(df)`: mirror of `calculate_smart_support`
(110% fallback, trailing 10-bar highest high, Fibonacci extensions above
the trailing 20-bar high). -/
def calculate_smart_resistance (bars : List Bar) : ℚ :=
  if bars.length < 20 then lastCloseD bars * 1.10
  else
    let cs := closes bars
    let ma20 := listMean (lastN 20 cs)
    let ma50 := if 50 ≤ bars.length then listMean (lastN 50 cs) else ma20
    let recentHigh := maxListD (lastN (min 10 bars.length) (highs bars)) 0
    let high := maxListD (lastN (min 20 bars.length) (highs bars)) 0
    let low := minListD (lastN (min 20 bars.length) (lows bars)) 0
    let fib138 := high + (high - low) * 0.382
    let fib150 := high + (high - low) * 0.5
    (ma20 + ma50 + recentHigh + fib138 + fib150) / 5

/-- The suggestion label of `generate_enhanced_signals`, by its fixed
thresholds on the overall score. -/
def suggestionLabel (score : ℚ) : String :=
  if score ≥ 80 then "强烈买入"
  else if score ≥ 60 then "建议买入"
  else if score ≥ 40 then "观望"
  else "注意风险"

/-- The support/resistance tag block of `generate_enhanced_signals`:
guarded by the Python truthiness of both levels (non-zero), and an
`if`/`elif` so that at most one of the two tags is appended, the support
tag taking precedence. -/
def nearLevelTags (current support resistance : ℚ) : List String :=
  if support ≠ 0 ∧ resistance ≠ 0 then
    if current ≤ support * 1.02 then ["接近支撑位"]
    else if current ≥ resistance * 0.98 then ["接近阻力位"]
    else []
  else []

/-- The RSI tag block of `generate_enhanced_signals`: `if rsi:` is truthy
for NaN (which then fails both threshold comparisons) and falsy for an RSI
of exactly 0. -/
def rsiTags : Option ℚ → List String
  | none => []
  | some r =>
    if r ≠ 0 then
      if r < 30 then ["RSI超卖"]
      else if r > 70 then ["RSI超买"]
      else []
    else []

/-- `generate_enhanced_signals(df, support, resistance, overall_score)`:
the suggestion label followed by the level tags and the RSI tags.  On an
empty frame `iloc[-1]` raises and the `except` returns the failure
marker. -/
def generate_enhanced_signals (bars : List Bar) (support resistance overall_score : ℚ) :
    List String :=
  if bars.isEmpty then ["信号生成失败"]
  else
    [suggestionLabel overall_score]
      ++ nearLevelTags (lastCloseD bars) support resistance
      ++ rsiTags (calculate_rsi bars)

/-! ## Backtest performance evaluator (`backtesting.py`) -/

/-- One trade dict: the `type` key and the optional `profit` key
(`t.get('profit', 0)` defaults to 0). -/
structure Trade where
  ttype : String
  profit : Option ℚ

/-- The body of the per-trade loop of `calculate_performance`: both the
BUY and the SELL branch are `pass`, so the state (final value, returns,
equity curve) is returned unchanged on every path. -/
def processTrade (st : ℚ × List ℚ × List ℚ) (_t : Trade) : ℚ × List ℚ × List ℚ :=
  if _t.ttype = "BUY" then st
  else if _t.ttype = "SELL" then st
  else st

/-- `calculate_max_drawdown(equity_curve)`: running peak and maximal
`(peak - value)/peak` over the curve; 0 for the empty curve. -/
def calculate_max_drawdown (curve : List ℚ) : ℚ :=
  match curve with
  | [] => 0
  | p0 :: _ =>
    (curve.foldl (fun st v =>
      let peak := if v > st.1 then v else st.1
      (peak, max st.2 ((peak - v) / peak))) (p0, 0)).2

/-- The metric dict returned by `calculate_performance`. -/
structure PerformanceReport where
  final_value : ℚ
  total_return : ℚ
  win_rate : ℚ
  max_drawdown : ℚ
  sharpe_ratio : ℚ
deriving DecidableEq

/-- `BacktestingEngine.calculate_performance(trades, initial_capital)`.
The empty-list branch returns the baseline report before any division,
for every capital.  Otherwise `total_return = (final_value -
initial_capital) / initial_capital` is the first division executed, and
it raises ZeroDivisionError exactly when the initial capital is 0 (the
loop leaves `final_value` at the initial capital, and the later
drawdown division by the running peak of `[initial_capital]` divides by
the same number): `none` models that raise.  For a non-zero capital the
rational divisions agree with the float ones. -/
def calculate_performance (trades : List Trade) (initial_capital : ℚ) :
    Option PerformanceReport :=
  if trades.isEmpty then
    some ⟨initial_capital, 0, 0, 0, 0⟩
  else
    let st := trades.foldl processTrade (initial_capital, ([] : List ℚ), [initial_capital])
    let final_value := st.1
    let returns := st.2.1
    let equity_curve := st.2.2
    if initial_capital = 0 then none
    else
      let total_return := (final_value - initial_capital) / initial_capital
      let win_trades := (trades.filter (fun t => 0 < t.profit.getD 0)).length
      let win_rate := if trades.isEmpty then 0 else (win_trades : ℚ) / (trades.length : ℚ)
      let max_drawdown := calculate_max_drawdown equity_curve
      let sharpe_ratio :=
        if returns.isEmpty then 0
        else if npStd returns > 0 then listMean returns / npStd returns * Rat.sqrt 252
        else 0
      some ⟨final_value, total_return, win_rate, max_drawdown, sharpe_ratio⟩

/-! ## Concrete inputs for witnesses and counterexamples -/

/-- A two-bar series: the C1 failing input. -/
def c1Bars : List Bar := [⟨100, 100, 100, 0⟩, ⟨101, 101, 101, 0⟩]

/-- A five-bar rising series: the C3 failing input. -/
def c3Bars : List Bar :=
  [⟨100, 100, 100, 0⟩, ⟨101, 101, 101, 0⟩, ⟨102, 102, 102, 0⟩,
   ⟨103, 103, 103, 0⟩, ⟨104, 104, 104, 0⟩]

/-- A 20-bar flat series: the C4 witness input. -/
def c4Bars : List Bar := List.replicate 20 ⟨110, 90, 100, 1000⟩

/-- A one-bar series: the C5 witness input. -/
def c5Bars : List Bar := [⟨100, 90, 95, 1000⟩]

/-- A one-bar series: the C6 witness input. -/
def c6Bars : List Bar := [⟨50, 40, 45, 200⟩]

/-- A four-bar flat series: the C8 counterexample input (its RSI is NaN,
so the code's RSI bucket contributes 0 points). -/
def c8FlatBars : List Bar := List.replicate 4 ⟨100, 100, 100, 1000⟩

/-- A three-bar flat-price series with rising volume: the C8 witness
input. -/
def c8WitnessBars : List Bar := [⟨100, 100, 100, 1⟩, ⟨100, 100, 100, 2⟩, ⟨100, 100, 100, 3⟩]

/-- A one-bar series at close 100: the C10 counterexample input. -/
def c10Bars : List Bar := [⟨100, 100, 100, 0⟩]

/-- A one-bar series: the C10 witness input. -/
def c10WitnessBars : List Bar := [⟨80, 70, 75, 10⟩]

/-- A single BUY trade: the C2 witness input. -/
def c2Trades : List Trade := [⟨"BUY", some 5⟩]

/-- The three trades of the C9 scenario (profits +10, −5, +3). -/
def c9Trades : List Trade := [⟨"SELL", some 10⟩, ⟨"SELL", some (-5)⟩, ⟨"SELL", some 3⟩]

/-! ### Helper lemmas about the embedding -/

theorem ewmAux_length (beta : ℚ) (xs : List ℚ) :
    ∀ num den, (ewmAux beta xs num den).length = xs.length := by
  induction xs with
  | nil => intro num den; rfl
  | cons x xs ih =>
    intro num den
    simp [ewmAux, ih]

theorem ewmMean_length (span : ℕ) (xs : List ℚ) :
    (ewmMean span xs).length = xs.length := ewmAux_length _ _ _ _

theorem getLastD_zipWith_sub (xs : List ℚ) :
    ∀ ys : List ℚ, xs.length = ys.length → ∀ d e : ℚ,
      (List.zipWith (fun a b => a - b) xs ys).getLastD (d - e) =
        xs.getLastD d - ys.getLastD e := by
  induction xs with
  | nil =>
    intro ys h d e
    have : ys = [] := by
      cases ys with
      | nil => rfl
      | cons y ys => simp at h
    subst this; rfl
  | cons x xs ih =>
    intro ys h d e
    cases ys with
    | nil => simp at h
    | cons y ys =>
      simp only [List.length_cons, Nat.succ.injEq] at h
      simp only [List.zipWith_cons_cons, List.getLastD_cons]
      exact ih ys h x y

theorem getLastD_zipWith_sub_self (xs ys : List ℚ) (h : xs.length = ys.length) :
    (List.zipWith (fun a b => a - b) xs ys).getLastD 0 =
      xs.getLastD 0 - ys.getLastD 0 := by
  have h0 := getLastD_zipWith_sub xs ys h 0 0
  simpa using h0

theorem processTrade_eq (st : ℚ × List ℚ × List ℚ) (t : Trade) : processTrade st t = st := by
  unfold processTrade
  split_ifs <;> rfl

theorem foldl_processTrade (trades : List Trade) (st : ℚ × List ℚ × List ℚ) :
    trades.foldl processTrade st = st := by
  induction trades generalizing st with
  | nil => rfl
  | cons t ts ih => rw [List.foldl_cons, processTrade_eq]; exact ih st

theorem zipWith_sub_replicate (n : ℕ) (a b : ℚ) :
    List.zipWith (fun x y => x - y) (List.replicate n a) (List.replicate n b) =
      List.replicate n (a - b) := by
  induction n with
  | zero => rfl
  | succ m ih => simp [List.replicate_succ, ih]

theorem ewmAux_const (beta c : ℚ) (hb : 0 < beta) :
    ∀ (n : ℕ) (num den : ℚ), 0 ≤ den → num = c * den →
      ewmAux beta (List.replicate n c) num den = List.replicate n c := by
  intro n
  induction n with
  | zero => intro num den _ _; rfl
  | succ m ih =>
    intro num den hden hnum
    have hpos : 0 < beta * den + 1 := by nlinarith
    have hval : (beta * num + c) / (beta * den + 1) = c := by
      rw [hnum, div_eq_iff (ne_of_gt hpos)]
      ring
    simp only [List.replicate_succ, ewmAux]
    rw [hval]
    congr 1
    exact ih (beta * num + c) (beta * den + 1) (le_of_lt hpos) (by rw [hnum]; ring)

theorem ewmMean_const (span : ℕ) (n : ℕ) (c : ℚ) (h : 0 < 1 - 2 / ((span : ℚ) + 1)) :
    ewmMean span (List.replicate n c) = List.replicate n c :=
  ewmAux_const _ c h n 0 0 le_rfl (by ring)

theorem macd_c8FlatBars : calculate_macd c8FlatBars = (0, 0, 0) := by
  have hne : ¬ (c8FlatBars.isEmpty = true) := by decide
  have hcl : closes c8FlatBars = List.replicate 4 100 := by
    simp [c8FlatBars, closes, List.map_replicate]
  have hg : (List.replicate 4 (0 : ℚ)).getLastD 0 = 0 := by decide
  simp only [calculate_macd, hcl, if_neg hne]
  rw [ewmMean_const 12 4 100 (by norm_num), ewmMean_const 26 4 100 (by norm_num),
    zipWith_sub_replicate]
  rw [show (100 : ℚ) - 100 = 0 from by norm_num]
  rw [ewmMean_const 9 4 0 (by norm_num), zipWith_sub_replicate]
  rw [show (0 : ℚ) - 0 = 0 from by norm_num]
  rw [hg]

/-! ## Claim theorems -/

/-- C1 (code bug evaluation): on a two-bar series `calculate_rsi` of
`stock_app_final.py` returns NaN (the rolling windows are unfilled and no
exception is raised), not the `50.0` the spec requires for series shorter
than `period+1` bars. -/
theorem calculate_rsi_short_series_is_nan :
    calculate_rsi c1Bars = none ∧ calculate_rsi c1Bars ≠ some 50 := by
  decide

/-- C3 (code bug evaluation): on a five-bar series
`calculate_bollinger_bands` returns NaN bands (the 20-bar rolling windows
are unfilled and no exception is raised), not the `(close*1.1, close*0.9)`
fallback the spec requires for series shorter than `period` bars. -/
theorem calculate_bollinger_short_series_is_nan :
    calculate_bollinger_bands c3Bars = (none, none) ∧
    calculate_bollinger_bands c3Bars ≠ (some (104 * 1.1), some (104 * 0.9)) := by
  decide

/-- C7: for every series the MACD result satisfies
`histogram = macd - signal` exactly, including the all-zero fallback. -/
theorem macd_histogram_identity (bars : List Bar) :
    (calculate_macd bars).2.2 = (calculate_macd bars).1 - (calculate_macd bars).2.1 := by
  unfold calculate_macd
  by_cases h : bars.isEmpty = true
  · rw [if_pos h]; norm_num
  · rw [if_neg h]
    exact getLastD_zipWith_sub_self _ _ ((ewmMean_length 9 _).symm)

/-- C5: for every non-empty series and every strategy string, the AI score
lies in [0, 100] (the final `min(max(score, 0), 100)` clamp). -/
theorem calculate_ai_score_in_range (bars : List Bar) (strategy : String)
    (_h : bars ≠ []) :
    0 ≤ calculate_ai_score bars strategy ∧ calculate_ai_score bars strategy ≤ 100 := by
  unfold calculate_ai_score
  exact ⟨le_min (le_max_right _ _) (by norm_num), min_le_right _ _⟩

/-- C5 witness: the bounds at a concrete one-bar series and the balanced
strategy. -/
theorem calculate_ai_score_in_range_witness :
    c5Bars ≠ [] ∧
      (0 ≤ calculate_ai_score c5Bars "balanced" ∧ calculate_ai_score c5Bars "balanced" ≤ 100) :=
  ⟨by simp [c5Bars], calculate_ai_score_in_range c5Bars "balanced" (by simp [c5Bars])⟩

/-- C6: every strategy name other than "momentum", "value" and "volume"
selects the balanced weight vector (0.30, 0.25, 0.25, 0.20) and the
balanced strategy-adjustment branch; the embedding is total, matching the
source's blanket `except` that prevents any exception from escaping. -/
theorem calculate_ai_score_unknown_strategy (bars : List Bar) (strategy : String)
    (h1 : strategy ≠ "momentum") (h2 : strategy ≠ "value") (h3 : strategy ≠ "volume") :
    calculate_ai_score bars strategy =
      min (max (calculate_technical_score bars * 0.30 + calculate_momentum_score bars * 0.25 +
        calculate_risk_score bars * 0.25 + balancedAdj bars * 0.20) 0) 100 := by
  unfold calculate_ai_score calculate_strategy_adjustment
  simp only [if_neg h1, if_neg h2, if_neg h3]

/-- C6 witness: the unrecognized name "growth" at a concrete series. -/
theorem calculate_ai_score_unknown_strategy_witness :
    ("growth" ≠ "momentum" ∧ "growth" ≠ "value" ∧ "growth" ≠ "volume") ∧
      calculate_ai_score c6Bars "growth" =
        min (max (calculate_technical_score c6Bars * 0.30 + calculate_momentum_score c6Bars * 0.25 +
          calculate_risk_score c6Bars * 0.25 + balancedAdj c6Bars * 0.20) 0) 100 :=
  ⟨by decide,
   calculate_ai_score_unknown_strategy c6Bars "growth" (by decide) (by decide) (by decide)⟩

/-- C2 counterexample: at initial capital 0 with a non-empty trade list
the source raises ZeroDivisionError in `total_return` (modelled by
`none`), so no report is returned at all — in particular not the report
the claim predicts for C = 0 (final value 0, zero return/drawdown/Sharpe
and win rate 1 for the single winning trade). -/
theorem calculate_performance_zero_capital_counterexample :
    calculate_performance c2Trades 0 = none ∧
    calculate_performance c2Trades 0 ≠ some ⟨0, 0, 1, 0, 0⟩ := by
  decide

/-- C2 (amended): for every trade list and every non-zero initial
capital the backtest returns a report with `final_value = C`,
`total_return = 0`, `max_drawdown = 0` and `sharpe_ratio = 0`, only the
win rate depending on the trades: the BUY/SELL loop never updates the
portfolio value, the returns list or the equity curve.  At C = 0 with a
non-empty trade list the code raises ZeroDivisionError instead of
returning a report. -/
theorem calculate_performance_ignores_trades (trades : List Trade) (C : ℚ) (h : C ≠ 0) :
    ∃ w, calculate_performance trades C = some ⟨C, 0, w, 0, 0⟩ := by
  cases trades with
  | nil => exact ⟨0, rfl⟩
  | cons t ts =>
    have hfold : List.foldl processTrade (C, ([] : List ℚ), [C]) (t :: ts) =
        (C, ([] : List ℚ), [C]) := foldl_processTrade _ _
    have hdd : calculate_max_drawdown [C] = 0 := by
      unfold calculate_max_drawdown
      simp [lt_irrefl, sub_self, zero_div]
    refine ⟨(((t :: ts).filter (fun t => 0 < t.profit.getD 0)).length : ℚ) /
      ((t :: ts).length : ℚ), ?_⟩
    unfold calculate_performance
    simp only [List.isEmpty_cons, Bool.false_eq_true, if_false, hfold, if_neg h, hdd,
      List.isEmpty_nil, if_true, sub_self, zero_div]

/-- C2 witness: a concrete one-trade list and capital 10000. -/
theorem calculate_performance_ignores_trades_witness :
    (10000 : ℚ) ≠ 0 ∧
      ∃ w, calculate_performance c2Trades 10000 = some ⟨10000, 0, w, 0, 0⟩ :=
  ⟨by norm_num, calculate_performance_ignores_trades c2Trades 10000 (by norm_num)⟩

/-- C9 counterexample: at initial capital 0 the three-trade list of the
claim's scenario produces no report (the source raises
ZeroDivisionError before the win rate is returned), in particular not
one with the claimed win rate 2/3. -/
theorem win_rate_zero_capital_counterexample :
    calculate_performance c9Trades 0 = none ∧
    calculate_performance c9Trades 0 ≠ some ⟨0, 0, 2 / 3, 0, 0⟩ := by
  decide

/-- C9 (amended): whenever a report is produced — that is, for every
non-zero initial capital — the win rate is the fraction of trades with
strictly positive recorded profit (missing profits default to 0); at
zero capital with a non-empty trade list the code raises
ZeroDivisionError instead.  The empty trade list yields the
initial-capital baseline report for every capital, zero included. -/
theorem calculate_performance_win_rate_spec (trades : List Trade) (C C0 : ℚ) (h : C ≠ 0) :
    (∃ p, calculate_performance trades C = some p ∧
      p.win_rate =
        ((trades.filter (fun t => 0 < t.profit.getD 0)).length : ℚ) / (trades.length : ℚ)) ∧
    calculate_performance [] C0 = some ⟨C0, 0, 0, 0, 0⟩ := by
  constructor
  · cases trades with
    | nil => exact ⟨⟨C, 0, 0, 0, 0⟩, rfl, by simp⟩
    | cons t ts =>
      have hfold : List.foldl processTrade (C, ([] : List ℚ), [C]) (t :: ts) =
          (C, ([] : List ℚ), [C]) := foldl_processTrade _ _
      refine ⟨⟨C, (C - C) / C,
        (((t :: ts).filter (fun t => 0 < t.profit.getD 0)).length : ℚ) /
          ((t :: ts).length : ℚ),
        calculate_max_drawdown [C], 0⟩, ?_, rfl⟩
      unfold calculate_performance
      simp only [List.isEmpty_cons, Bool.false_eq_true, if_false, hfold, if_neg h,
        List.isEmpty_nil, if_true]
  · rfl

/-- C9 witness: trades with profits +10, −5, +3 and capital 10000 give a
report with win rate 2/3, and the empty list at capital 0 gives the
baseline report. -/
theorem calculate_performance_win_rate_spec_witness :
    (10000 : ℚ) ≠ 0 ∧
    ((∃ p, calculate_performance c9Trades 10000 = some p ∧
        p.win_rate =
          ((c9Trades.filter (fun t => 0 < t.profit.getD 0)).length : ℚ) /
            (c9Trades.length : ℚ)) ∧
      calculate_performance [] 0 = some ⟨0, 0, 0, 0, 0⟩) ∧
    (∃ p, calculate_performance c9Trades 10000 = some p ∧ p.win_rate = 2 / 3) := by
  have hmain := calculate_performance_win_rate_spec c9Trades 10000 0 (by norm_num)
  refine ⟨by norm_num, hmain, ?_⟩
  obtain ⟨p, hp, hw⟩ := hmain.1
  refine ⟨p, hp, ?_⟩
  rw [hw]
  have h2 : (c9Trades.filter (fun t => 0 < t.profit.getD 0)).length = 2 := by decide
  have h3 : c9Trades.length = 3 := by decide
  rw [h2, h3]
  norm_num

/-- C4: below 20 bars both levels fall back to ±10% of the last close;
with at least 20 bars the support is the mean of its five candidate levels
(20-bar SMA, 50-bar SMA falling back to the 20-bar value below 50 bars,
trailing 10-bar lowest low, and the two Fibonacci retracements of the
trailing 20-bar high–low range), and the resistance is the mirrored
mean. -/
theorem smart_support_resistance_spec (bars : List Bar) (_h : bars ≠ []) :
    (bars.length < 20 →
      calculate_smart_support bars = lastCloseD bars * 0.90 ∧
      calculate_smart_resistance bars = lastCloseD bars * 1.10) ∧
    (20 ≤ bars.length →
      calculate_smart_support bars =
        (listMean (lastN 20 (closes bars)) +
          (if 50 ≤ bars.length then listMean (lastN 50 (closes bars))
           else listMean (lastN 20 (closes bars))) +
          minListD (lastN 10 (lows bars)) 0 +
          (maxListD (lastN 20 (highs bars)) 0 -
            (maxListD (lastN 20 (highs bars)) 0 - minListD (lastN 20 (lows bars)) 0) * 0.382) +
          (maxListD (lastN 20 (highs bars)) 0 -
            (maxListD (lastN 20 (highs bars)) 0 - minListD (lastN 20 (lows bars)) 0) * 0.5)) / 5 ∧
      calculate_smart_resistance bars =
        (listMean (lastN 20 (closes bars)) +
          (if 50 ≤ bars.length then listMean (lastN 50 (closes bars))
           else listMean (lastN 20 (closes bars))) +
          maxListD (lastN 10 (highs bars)) 0 +
          (maxListD (lastN 20 (highs bars)) 0 +
            (maxListD (lastN 20 (highs bars)) 0 - minListD (lastN 20 (lows bars)) 0) * 0.382) +
          (maxListD (lastN 20 (highs bars)) 0 +
            (maxListD (lastN 20 (highs bars)) 0 - minListD (lastN 20 (lows bars)) 0) * 0.5)) / 5) := by
  constructor
  · intro hlt
    unfold calculate_smart_support calculate_smart_resistance
    rw [if_pos hlt, if_pos hlt]
    exact ⟨rfl, rfl⟩
  · intro hge
    have hnlt : ¬ bars.length < 20 := not_lt.mpr hge
    have h10 : min 10 bars.length = 10 := min_eq_left (by omega)
    have h20 : min 20 bars.length = 20 := min_eq_left hge
    unfold calculate_smart_support calculate_smart_resistance
    rw [if_neg hnlt, if_neg hnlt]
    simp only [h10, h20]
    constructor <;> trivial

/-- C4 witness: the candidate-mean characterization instantiated at a
concrete flat 20-bar series (high 110, low 90, close 100), with both
hypotheses discharged. -/
theorem smart_support_resistance_spec_witness :
    c4Bars ≠ [] ∧ 20 ≤ c4Bars.length ∧
    (calculate_smart_support c4Bars =
        (listMean (lastN 20 (closes c4Bars)) +
          (if 50 ≤ c4Bars.length then listMean (lastN 50 (closes c4Bars))
           else listMean (lastN 20 (closes c4Bars))) +
          minListD (lastN 10 (lows c4Bars)) 0 +
          (maxListD (lastN 20 (highs c4Bars)) 0 -
            (maxListD (lastN 20 (highs c4Bars)) 0 - minListD (lastN 20 (lows c4Bars)) 0) * 0.382) +
          (maxListD (lastN 20 (highs c4Bars)) 0 -
            (maxListD (lastN 20 (highs c4Bars)) 0 - minListD (lastN 20 (lows c4Bars)) 0) * 0.5)) / 5 ∧
      calculate_smart_resistance c4Bars =
        (listMean (lastN 20 (closes c4Bars)) +
          (if 50 ≤ c4Bars.length then listMean (lastN 50 (closes c4Bars))
           else listMean (lastN 20 (closes c4Bars))) +
          maxListD (lastN 10 (highs c4Bars)) 0 +
          (maxListD (lastN 20 (highs c4Bars)) 0 +
            (maxListD (lastN 20 (highs c4Bars)) 0 - minListD (lastN 20 (lows c4Bars)) 0) * 0.382) +
          (maxListD (lastN 20 (highs c4Bars)) 0 +
            (maxListD (lastN 20 (highs c4Bars)) 0 - minListD (lastN 20 (lows c4Bars)) 0) * 0.5)) / 5) :=
  ⟨by simp [c4Bars], by simp [c4Bars],
   (smart_support_resistance_spec c4Bars (by simp [c4Bars])).2 (by simp [c4Bars])⟩

/-- The RSI bucket chain of `calculate_enhanced_technical_score` (whose
final `else 0` branch is unreachable for a real RSI value) equals the
claimed three-valued bucket. -/
theorem rsiBucket20_eq (r : ℚ) :
    (if 30 ≤ r ∧ r ≤ 70 then (20 : ℚ)
     else if r < 30 then 30
     else if r > 70 then 10
     else 0) =
      (if 30 ≤ r ∧ r ≤ 70 then (20 : ℚ) else if r < 30 then 30 else 10) := by
  split_ifs with h1 h2 h3 <;>
    first
      | rfl
      | exact absurd ⟨not_lt.mp h2, not_lt.mp h3⟩ h1

/-- The MACD bucket of `calculate_enhanced_technical_score`, written via
the trend-string round trip, equals the claimed numeric bucket. -/
theorem macdBucket_eq (bars : List Bar) :
    (if calculate_macd_signal bars = "bullish" then (25 : ℚ)
     else if calculate_macd_signal bars = "bearish" then 5
     else 15) = specMacdBucket bars := by
  have hbb : ("bearish" : String) ≠ "bullish" := by decide
  have hnb : ("neutral" : String) ≠ "bullish" := by decide
  have hne : ("neutral" : String) ≠ "bearish" := by decide
  unfold calculate_macd_signal specMacdBucket
  by_cases h1 : (calculate_macd bars).1 > (calculate_macd bars).2.1
  · simp [h1]
  · by_cases h2 : (calculate_macd bars).1 < (calculate_macd bars).2.1
    · simp [h1, h2, hbb]
    · simp [h1, h2, hnb, hne]

/-- The Bollinger bucket of `calculate_enhanced_technical_score`, written
via the signal-string round trip, equals the claimed numeric bucket. -/
theorem bbBucket_eq (bars : List Bar) :
    (if calculate_bollinger_signal bars = "oversold" then (20 : ℚ)
     else if calculate_bollinger_signal bars = "overbought" then 5
     else 15) = specBbBucket bars := by
  have hno : ("normal" : String) ≠ "oversold" := by decide
  have hnb : ("normal" : String) ≠ "overbought" := by decide
  have hob : ("overbought" : String) ≠ "oversold" := by decide
  unfold calculate_bollinger_signal specBbBucket
  cases hbands : calculate_bollinger_bands bars with
  | mk u l =>
    cases u with
    | none => simp [hno, hnb]
    | some uv =>
      cases l with
      | none => simp [hno, hnb]
      | some lv =>
        by_cases hp1 : lastCloseD bars ≤ lv
        · simp [hp1]
        · by_cases hp2 : lastCloseD bars ≥ uv
          · simp [hp1, hp2, hob]
          · simp [hp1, hp2, hno, hnb]

/-- The short-series branch of `calculate_volume_score` coincides with the
claimed bucket formula when no volume is negative (the trailing-5-bar
average then equals the overall average, which cannot exceed 1.5 times
itself). -/
theorem volumeBucket_eq (bars : List Bar) (h : ∀ b ∈ bars, 0 ≤ b.volume) :
    calculate_volume_score bars = specVolumeBucket bars := by
  unfold calculate_volume_score specVolumeBucket
  by_cases h5 : bars.length < 5
  · rw [if_pos h5]
    have hlast : lastN 5 (volumes bars) = volumes bars := by
      unfold lastN
      have hl : (volumes bars).length - 5 = 0 := by
        unfold volumes; rw [List.length_map]; omega
      rw [hl, List.drop_zero]
    rw [hlast]
    have havg : 0 ≤ listMean (volumes bars) := by
      unfold listMean
      apply div_nonneg
      · apply List.sum_nonneg
        intro x hx
        unfold volumes at hx
        obtain ⟨b, hb, rfl⟩ := List.mem_map.mp hx
        exact h b hb
      · positivity
    have h1 : ¬ (listMean (volumes bars) > listMean (volumes bars) * 1.5) := by
      intro hc; nlinarith
    have h2 : ¬ (listMean (volumes bars) > listMean (volumes bars)) := lt_irrefl _
    rw [if_neg h1, if_neg h2]
  · rw [if_neg h5]

/-- C8 (amended): the enhanced technical score is the capped sum of the
four claimed buckets where the RSI bucket is extended by 0 for a NaN RSI
(series shorter than period+1 bars, or flat windows), which is what the
code's comparison chain yields there. -/
theorem enhanced_technical_score_spec (bars : List Bar)
    (h : ∀ b ∈ bars, 0 ≤ b.volume) :
    calculate_enhanced_technical_score bars =
      min (specRsiBucket (calculate_rsi bars) + specMacdBucket bars +
        specBbBucket bars + specVolumeBucket bars) 100 := by
  unfold calculate_enhanced_technical_score
  rw [macdBucket_eq, bbBucket_eq, volumeBucket_eq bars h]
  cases hr : calculate_rsi bars with
  | none => rfl
  | some r =>
    simp only [specRsiBucket]
    rw [rsiBucket20_eq]

/-- C8 counterexample: on a flat four-bar series the RSI is NaN and the
code's RSI bucket contributes 0, so the score is 40 = 0+15+15+10; no RSI
bucket value from the claimed set {20, 30, 10} can produce it together
with the actual MACD (15), Bollinger (15) and volume (10) buckets. -/
theorem enhanced_technical_score_flat4_counterexample :
    calculate_enhanced_technical_score c8FlatBars = 40 ∧
    calculate_rsi c8FlatBars = none ∧
    specMacdBucket c8FlatBars = 15 ∧
    specBbBucket c8FlatBars = 15 ∧
    specVolumeBucket c8FlatBars = 10 ∧
    (40 : ℚ) ≠ min ((20 : ℚ) + 15 + 15 + 10) 100 ∧
    (40 : ℚ) ≠ min ((30 : ℚ) + 15 + 15 + 10) 100 ∧
    (40 : ℚ) ≠ min ((10 : ℚ) + 15 + 15 + 10) 100 := by
  have hrsi : calculate_rsi c8FlatBars = none := by decide
  have hbb : calculate_bollinger_bands c8FlatBars = (none, none) := by decide
  have hsigm : calculate_macd_signal c8FlatBars = "neutral" := by
    simp only [calculate_macd_signal, macd_c8FlatBars]
    norm_num
  have hsigb : calculate_bollinger_signal c8FlatBars = "normal" := by decide
  have hvol : calculate_volume_score c8FlatBars = 10 := by decide
  have s1 : ("neutral" : String) ≠ "bullish" := by decide
  have s2 : ("neutral" : String) ≠ "bearish" := by decide
  have s3 : ("normal" : String) ≠ "oversold" := by decide
  have s4 : ("normal" : String) ≠ "overbought" := by decide
  have hv : volumes c8FlatBars = List.replicate 4 1000 := by
    simp [volumes, c8FlatBars, List.map_replicate]
  have hvmean : listMean (List.replicate 4 (1000 : ℚ)) = 1000 := by
    simp [listMean, List.sum_replicate]
    norm_num
  refine ⟨?_, hrsi, ?_, ?_, ?_, by norm_num [min_def], by norm_num [min_def],
    by norm_num [min_def]⟩
  · simp [calculate_enhanced_technical_score, hrsi, hsigm, hsigb, hvol, s1, s2, s3, s4]
    rw [min_eq_left (by norm_num)]
    norm_num
  · simp only [specMacdBucket, macd_c8FlatBars]
    norm_num
  · simp only [specBbBucket, hbb]
  · simp only [specVolumeBucket, hv]
    have hlast : lastN 5 (List.replicate 4 (1000 : ℚ)) = List.replicate 4 1000 := by decide
    rw [hlast, hvmean]
    norm_num

/-- C8 witness: the amended bucket decomposition at a concrete three-bar
series with non-negative volumes. -/
theorem enhanced_technical_score_spec_witness :
    (∀ b ∈ c8WitnessBars, 0 ≤ b.volume) ∧
      calculate_enhanced_technical_score c8WitnessBars =
        min (specRsiBucket (calculate_rsi c8WitnessBars) + specMacdBucket c8WitnessBars +
          specBbBucket c8WitnessBars + specVolumeBucket c8WitnessBars) 100 :=
  ⟨by decide, enhanced_technical_score_spec c8WitnessBars (by decide)⟩

theorem mem_nearLevelTags_support (c s r : ℚ) :
    "接近支撑位" ∈ nearLevelTags c s r ↔ s ≠ 0 ∧ r ≠ 0 ∧ c ≤ s * 1.02 := by
  have hx : ("接近支撑位" : String) ≠ "接近阻力位" := by decide
  unfold nearLevelTags
  split_ifs with h1 h2 h3 <;> simp_all

theorem mem_nearLevelTags_resistance (c s r : ℚ) :
    "接近阻力位" ∈ nearLevelTags c s r ↔
      s ≠ 0 ∧ r ≠ 0 ∧ ¬ c ≤ s * 1.02 ∧ c ≥ r * 0.98 := by
  have hx : ("接近阻力位" : String) ≠ "接近支撑位" := by decide
  unfold nearLevelTags
  split_ifs with h1 h2 h3 <;> simp_all

theorem mem_rsiTags_oversold (o : Option ℚ) :
    "RSI超卖" ∈ rsiTags o ↔ ∃ v, o = some v ∧ v ≠ 0 ∧ v < 30 := by
  have hx : ("RSI超卖" : String) ≠ "RSI超买" := by decide
  cases o with
  | none => simp [rsiTags]
  | some r =>
    simp only [rsiTags]
    split_ifs with h1 h2 h3 <;> simp_all

theorem mem_rsiTags_overbought (o : Option ℚ) :
    "RSI超买" ∈ rsiTags o ↔ ∃ v, o = some v ∧ v ≠ 0 ∧ ¬ v < 30 ∧ v > 70 := by
  have hx : ("RSI超买" : String) ≠ "RSI超卖" := by decide
  cases o with
  | none => simp [rsiTags]
  | some r =>
    simp only [rsiTags]
    split_ifs with h1 h2 h3 <;> simp_all

theorem suggestionLabel_ne_tags (sc : ℚ) :
    suggestionLabel sc ≠ "接近支撑位" ∧ suggestionLabel sc ≠ "接近阻力位" ∧
    suggestionLabel sc ≠ "RSI超卖" ∧ suggestionLabel sc ≠ "RSI超买" := by
  unfold suggestionLabel
  split_ifs <;> exact ⟨by decide, by decide, by decide, by decide⟩

theorem support_tag_not_mem_rsiTags (o : Option ℚ) : "接近支撑位" ∉ rsiTags o := by
  cases o with
  | none => decide
  | some r => simp only [rsiTags]; split_ifs <;> decide

theorem resistance_tag_not_mem_rsiTags (o : Option ℚ) : "接近阻力位" ∉ rsiTags o := by
  cases o with
  | none => decide
  | some r => simp only [rsiTags]; split_ifs <;> decide

theorem oversold_tag_not_mem_nearLevelTags (c s r : ℚ) :
    "RSI超卖" ∉ nearLevelTags c s r := by
  unfold nearLevelTags; split_ifs <;> decide

theorem overbought_tag_not_mem_nearLevelTags (c s r : ℚ) :
    "RSI超买" ∉ nearLevelTags c s r := by
  unfold nearLevelTags; split_ifs <;> decide

/-- C10 (amended): for a non-empty series the output starts with exactly
one suggestion label chosen by the fixed thresholds, the "near support"
tag appears iff both levels are non-zero (Python truthiness) and
close ≤ support·1.02, the "near resistance" tag appears iff additionally
the support condition fails (the `elif` makes the two tags mutually
exclusive), and the RSI tags appear iff the RSI is an actual non-zero
number below 30 / above 70. -/
theorem generate_enhanced_signals_spec (bars : List Bar)
    (support resistance score : ℚ) (h : bars ≠ []) :
    (generate_enhanced_signals bars support resistance score).head? =
        some (suggestionLabel score) ∧
    ("接近支撑位" ∈ generate_enhanced_signals bars support resistance score ↔
        support ≠ 0 ∧ resistance ≠ 0 ∧ lastCloseD bars ≤ support * 1.02) ∧
    ("接近阻力位" ∈ generate_enhanced_signals bars support resistance score ↔
        support ≠ 0 ∧ resistance ≠ 0 ∧ ¬ lastCloseD bars ≤ support * 1.02 ∧
          lastCloseD bars ≥ resistance * 0.98) ∧
    ("RSI超卖" ∈ generate_enhanced_signals bars support resistance score ↔
        ∃ v, calculate_rsi bars = some v ∧ v ≠ 0 ∧ v < 30) ∧
    ("RSI超买" ∈ generate_enhanced_signals bars support resistance score ↔
        ∃ v, calculate_rsi bars = some v ∧ v ≠ 0 ∧ ¬ v < 30 ∧ v > 70) := by
  obtain ⟨b, bs, rfl⟩ : ∃ b bs, bars = b :: bs := by
    cases bars with
    | nil => exact absurd rfl h
    | cons b bs => exact ⟨b, bs, rfl⟩
  have hout : generate_enhanced_signals (b :: bs) support resistance score =
      suggestionLabel score ::
        (nearLevelTags (lastCloseD (b :: bs)) support resistance ++
          rsiTags (calculate_rsi (b :: bs))) := rfl
  rw [hout]
  refine ⟨rfl, ?_, ?_, ?_, ?_⟩
  · rw [List.mem_cons, List.mem_append, mem_nearLevelTags_support]
    have hne : ¬ ("接近支撑位" = suggestionLabel score) :=
      fun e => (suggestionLabel_ne_tags score).1 e.symm
    have hnr := support_tag_not_mem_rsiTags (calculate_rsi (b :: bs))
    tauto
  · rw [List.mem_cons, List.mem_append, mem_nearLevelTags_resistance]
    have hne : ¬ ("接近阻力位" = suggestionLabel score) :=
      fun e => (suggestionLabel_ne_tags score).2.1 e.symm
    have hnr := resistance_tag_not_mem_rsiTags (calculate_rsi (b :: bs))
    tauto
  · rw [List.mem_cons, List.mem_append, mem_rsiTags_oversold]
    have hne : ¬ ("RSI超卖" = suggestionLabel score) :=
      fun e => (suggestionLabel_ne_tags score).2.2.1 e.symm
    have hnl := oversold_tag_not_mem_nearLevelTags
      (lastCloseD (b :: bs)) support resistance
    tauto
  · rw [List.mem_cons, List.mem_append, mem_rsiTags_overbought]
    have hne : ¬ ("RSI超买" = suggestionLabel score) :=
      fun e => (suggestionLabel_ne_tags score).2.2.2 e.symm
    have hnl := overbought_tag_not_mem_nearLevelTags
      (lastCloseD (b :: bs)) support resistance
    tauto

/-- C10 counterexample: with close = support = resistance = 100 and
score 50 the claimed "near resistance" condition close ≥ resistance·0.98
holds, yet the output is ["观望", "接近支撑位"] — the `elif` suppresses the
resistance tag, so the tags are not appended independently. -/
theorem generate_enhanced_signals_elif_counterexample :
    lastCloseD c10Bars ≥ (100 : ℚ) * 0.98 ∧
    generate_enhanced_signals c10Bars 100 100 50 = ["观望", "接近支撑位"] ∧
    "接近阻力位" ∉ generate_enhanced_signals c10Bars 100 100 50 := by
  have hclose : lastCloseD c10Bars = 100 := by decide
  have hrsi : calculate_rsi c10Bars = none := by decide
  have hlab : suggestionLabel 50 = "观望" := by
    unfold suggestionLabel
    norm_num
  have htags : nearLevelTags 100 100 100 = ["接近支撑位"] := by
    unfold nearLevelTags
    norm_num
  have hsig : generate_enhanced_signals c10Bars 100 100 50 = ["观望", "接近支撑位"] := by
    rw [show generate_enhanced_signals c10Bars 100 100 50 =
        suggestionLabel 50 ::
          (nearLevelTags (lastCloseD c10Bars) 100 100 ++ rsiTags (calculate_rsi c10Bars))
      from rfl, hclose, hrsi, hlab, htags]
    rfl
  refine ⟨?_, hsig, ?_⟩
  · rw [hclose]; norm_num
  · rw [hsig]; decide

/-- C10 witness: the amended characterization at a concrete one-bar
series (close 75, support 60, resistance 90, score 85), whose output is
exactly the "strong buy" label with no tags. -/
theorem generate_enhanced_signals_spec_witness :
    generate_enhanced_signals c10WitnessBars 60 90 85 = ["强烈买入"] ∧
    ((generate_enhanced_signals c10WitnessBars 60 90 85).head? =
        some (suggestionLabel 85) ∧
    ("接近支撑位" ∈ generate_enhanced_signals c10WitnessBars 60 90 85 ↔
        (60 : ℚ) ≠ 0 ∧ (90 : ℚ) ≠ 0 ∧ lastCloseD c10WitnessBars ≤ 60 * 1.02) ∧
    ("接近阻力位" ∈ generate_enhanced_signals c10WitnessBars 60 90 85 ↔
        (60 : ℚ) ≠ 0 ∧ (90 : ℚ) ≠ 0 ∧ ¬ lastCloseD c10WitnessBars ≤ 60 * 1.02 ∧
          lastCloseD c10WitnessBars ≥ 90 * 0.98) ∧
    ("RSI超卖" ∈ generate_enhanced_signals c10WitnessBars 60 90 85 ↔
        ∃ v, calculate_rsi c10WitnessBars = some v ∧ v ≠ 0 ∧ v < 30) ∧
    ("RSI超买" ∈ generate_enhanced_signals c10WitnessBars 60 90 85 ↔
        ∃ v, calculate_rsi c10WitnessBars = some v ∧ v ≠ 0 ∧ ¬ v < 30 ∧ v > 70)) := by
  have hclose : lastCloseD c10WitnessBars = 75 := by decide
  have hrsi : calculate_rsi c10WitnessBars = none := by decide
  have hlab : suggestionLabel 85 = "强烈买入" := by
    unfold suggestionLabel
    norm_num
  have htags : nearLevelTags 75 60 90 = [] := by
    unfold nearLevelTags
    norm_num
  refine ⟨?_, generate_enhanced_signals_spec c10WitnessBars 60 90 85 (by simp [c10WitnessBars])⟩
  rw [show generate_enhanced_signals c10WitnessBars 60 90 85 =
      suggestionLabel 85 ::
        (nearLevelTags (lastCloseD c10WitnessBars) 60 90 ++ rsiTags (calculate_rsi c10WitnessBars))
    from rfl, hclose, hrsi, hlab, htags]
  rfl

end StockAnalyzer
